/-
Verification of the pyleak detection engine against its specification.

The development shallowly embeds the source files `src/pyleak/combined.py`,
`src/pyleak/pytest_plugin.py` and `src/pyleak/utils.py`.  Components of the
package that are referenced but whose source is not available
(`pyleak/base.py`, `pyleak/task.py`, `pyleak/thread.py`, `pyleak/eventloop.py`)
are modelled from the specification text; each such definition carries a doc
comment starting `Modelled from the spec:`.

Python floating point durations are modelled as rationals; identities of
tasks and threads as natural numbers; Python string values as `String`.
-/

import Mathlib

namespace Pyleak

/-! ## Actions and configuration (`combined.py`, lines 14-33) -/

/-- A detector action.  Each `*_action` is one of `log|warn|raise`
(tasks additionally support `cancel`). -/
inductive Action
  | log
  | warn
  | raiseErr
  | cancel
deriving DecidableEq, Repr

/-- Marker arguments as collected by `should_monitor_test` and consumed by
`PyLeakConfig`: a Python dict whose recognised keys are modelled as optional
fields (`none` = key absent).  `extraKeys` records any additional keyword
names present in the dict; `PyLeakConfig` ignores them but their presence
makes the dict non-empty. -/
structure MarkerArgs where
  tasks : Option Bool := none
  task_action : Option Action := none
  task_name_filter : Option (Option (String → Bool)) := none
  enable_creation_tracking : Option Bool := none
  threads : Option Bool := none
  thread_action : Option Action := none
  thread_name_filter : Option (Option (String → Bool)) := none
  exclude_daemon : Option Bool := none
  blocking : Option Bool := none
  blocking_action : Option Action := none
  blocking_threshold : Option ℚ := none
  blocking_check_interval : Option ℚ := none
  extraKeys : List String := []

/-- `marker_args` is empty as a Python dict (`if not marker_args`). -/
def MarkerArgs.isEmptyDict (m : MarkerArgs) : Bool :=
  m.tasks.isNone && m.task_action.isNone && m.task_name_filter.isNone &&
  m.enable_creation_tracking.isNone && m.threads.isNone &&
  m.thread_action.isNone && m.thread_name_filter.isNone &&
  m.exclude_daemon.isNone && m.blocking.isNone && m.blocking_action.isNone &&
  m.blocking_threshold.isNone && m.blocking_check_interval.isNone &&
  m.extraKeys.isEmpty

/-- Resolved configuration for pyleak detection (`PyLeakConfig`). -/
structure PyLeakConfig where
  detect_tasks : Bool
  task_action : Action
  task_name_filter : Option (String → Bool)
  enable_task_creation_tracking : Bool
  detect_threads : Bool
  thread_action : Action
  thread_name_filter : Option (String → Bool)
  exclude_daemon_threads : Bool
  detect_blocking : Bool
  blocking_action : Action
  blocking_threshold : ℚ
  blocking_check_interval : ℚ

/-- `PyLeakConfig.__init__` (`combined.py`, lines 17-33): every field is
looked up in `marker_args` with its default (`marker_args.get(key, default)`).
This resolution is also the body that the classmethod
`PyLeakConfig.from_marker_args`, called by `pytest_plugin.py` but absent
from `combined.py`, would have to perform. -/
def PyLeakConfig.ofMarkerArgs (m : MarkerArgs) : PyLeakConfig where
  detect_tasks := m.tasks.getD true
  task_action := m.task_action.getD .raiseErr
  task_name_filter := (m.task_name_filter.getD none)
  enable_task_creation_tracking := m.enable_creation_tracking.getD false
  detect_threads := m.threads.getD true
  thread_action := m.thread_action.getD .raiseErr
  thread_name_filter := (m.thread_name_filter.getD none)
  exclude_daemon_threads := m.exclude_daemon.getD true
  detect_blocking := m.blocking.getD true
  blocking_action := m.blocking_action.getD .raiseErr
  blocking_threshold := m.blocking_threshold.getD (1/10)
  blocking_check_interval := m.blocking_check_interval.getD (1/100)

/-! ## Marker-argument collection (`pytest_plugin.py`, lines 19-43) -/

/-- Processing of one positional marker argument
(`pytest_plugin.py`, lines 27-35): `tasks`, `threads` and `blocking` set the
corresponding key to `True`; `all` sets all three; any other string is
ignored. -/
def applyPositionalArg (m : MarkerArgs) (a : String) : MarkerArgs :=
  if a = "tasks" then { m with tasks := some true }
  else if a = "threads" then { m with threads := some true }
  else if a = "blocking" then { m with blocking := some true }
  else if a = "all" then
    { m with tasks := some true, threads := some true, blocking := some true }
  else m

/-- `marker_args.update(marker.kwargs)` (`pytest_plugin.py`, line 38):
keyword values override positional ones. -/
def MarkerArgs.update (base kw : MarkerArgs) : MarkerArgs where
  tasks := kw.tasks.orElse fun _ => base.tasks
  task_action := kw.task_action.orElse fun _ => base.task_action
  task_name_filter := kw.task_name_filter.orElse fun _ => base.task_name_filter
  enable_creation_tracking :=
    kw.enable_creation_tracking.orElse fun _ => base.enable_creation_tracking
  threads := kw.threads.orElse fun _ => base.threads
  thread_action := kw.thread_action.orElse fun _ => base.thread_action
  thread_name_filter := kw.thread_name_filter.orElse fun _ => base.thread_name_filter
  exclude_daemon := kw.exclude_daemon.orElse fun _ => base.exclude_daemon
  blocking := kw.blocking.orElse fun _ => base.blocking
  blocking_action := kw.blocking_action.orElse fun _ => base.blocking_action
  blocking_threshold := kw.blocking_threshold.orElse fun _ => base.blocking_threshold
  blocking_check_interval :=
    kw.blocking_check_interval.orElse fun _ => base.blocking_check_interval
  extraKeys := base.extraKeys ++ kw.extraKeys

/-- The whole `no_leaks` marker: positional args and keyword args. -/
structure Marker where
  args : List String
  kwargs : MarkerArgs

/-- The marker-argument dict built by `should_monitor_test`
(`pytest_plugin.py`, lines 25-41): fold the positional args, update with the
kwargs, and fall back to enabling all three detectors when the dict is
empty. -/
def resolveMarkerArgs (mk : Marker) : MarkerArgs :=
  let m := MarkerArgs.update (mk.args.foldl applyPositionalArg {}) mk.kwargs
  if m.isEmptyDict then
    { tasks := some true, threads := some true, blocking := some true }
  else m

/-- The attribute names defined on class `PyLeakConfig` in `combined.py`:
only `__init__` (lines 17-33).  In particular `from_marker_args`, which
`should_monitor_test` calls at `pytest_plugin.py` line 43, is not among
them. -/
def pyLeakConfigAttrs : List String := ["__init__"]

/-- A Python-level failure of `should_monitor_test`. -/
inductive PyError
  | attributeError (msg : String)
deriving DecidableEq, Repr

/-- `should_monitor_test` (`pytest_plugin.py`, lines 19-43).  Returns
`ok none` when the test carries no `no_leaks` marker; otherwise it builds
the marker-argument dict and calls `PyLeakConfig.from_marker_args`.  The
dynamic attribute lookup is modelled explicitly: if the class does not
define `from_marker_args`, the call raises `AttributeError`. -/
def should_monitor_test (marker : Option Marker) :
    Except PyError (Option PyLeakConfig) :=
  match marker with
  | none => .ok none
  | some mk =>
    let margs := resolveMarkerArgs mk
    if pyLeakConfigAttrs.contains "from_marker_args" then
      .ok (some (PyLeakConfig.ofMarkerArgs margs))
    else
      .error (.attributeError
        "type object PyLeakConfig has no attribute from_marker_args")

/-! ## Combined orchestrator: start/stop traces
(`combined.py`, `CombinedLeakDetector`) -/

/-- The three detectors composed by the orchestrator. -/
inductive Det
  | taskLeakDet
  | blockingDet
  | threadLeakDet
deriving DecidableEq, Repr

/-- The detectors started by `CombinedLeakDetector.__aenter__`
(`combined.py`, lines 44-69), in source order: the task-leak detector when
`is_async and detect_tasks`, then the blocking detector when
`is_async and detect_blocking`, then the thread-leak detector when
`detect_threads`. -/
def aenterStarts (c : PyLeakConfig) (is_async : Bool) : List Det :=
  (if is_async && c.detect_tasks then [Det.taskLeakDet] else []) ++
  (if is_async && c.detect_blocking then [Det.blockingDet] else []) ++
  (if c.detect_threads then [Det.threadLeakDet] else [])

/-- The detectors stopped by `CombinedLeakDetector.__aexit__`
(`combined.py`, lines 71-89), in source order: each is stopped exactly when
its field is non-`None`, i.e. when `__aenter__` started it; the thread-leak
detector first, then the blocking detector, then the task-leak detector.
The exception being unwound (`exc`) is passed through to every detector but
never gates any stop. -/
def aexitStops (c : PyLeakConfig) (is_async : Bool) (exc : Option Nat) :
    List Det :=
  let _ := exc
  (if c.detect_threads then [Det.threadLeakDet] else []) ++
  (if is_async && c.detect_blocking then [Det.blockingDet] else []) ++
  (if is_async && c.detect_tasks then [Det.taskLeakDet] else [])

/-- The detectors started by the synchronous `CombinedLeakDetector.__enter__`
(`combined.py`, lines 98-108): only the thread-leak detector, when
`detect_threads`; `detect_tasks` and `detect_blocking` are ignored. -/
def enterStarts (c : PyLeakConfig) : List Det :=
  if c.detect_threads then [Det.threadLeakDet] else []

/-- The detectors stopped by the synchronous `CombinedLeakDetector.__exit__`
(`combined.py`, lines 110-112). -/
def exitStops (c : PyLeakConfig) : List Det :=
  if c.detect_threads then [Det.threadLeakDet] else []

/-! ## Combined orchestrator: exit aggregation (`combined.py`, lines 71-96) -/

/-- Frame descriptors and leak records are kept abstract: what matters for
aggregation is the identity of each collected error. -/
inductive DetErr
  | taskLeak (names : List String)
  | threadLeak (names : List String)
  | eventLoopBlock (durations : List ℚ)
deriving DecidableEq, Repr

/-- The error surfaced out of a scope, in Python terms: `none` when nothing
propagates, `user u` when the user exception `u` propagates unchanged,
`single e` when one detector error propagates unwrapped, and
`group errs ctx` when a `PyleakExceptionGroup` wrapping `errs` propagates
with the in-flight user exception `ctx` attached as implicit exception
context. -/
inductive Surfaced
  | nothing
  | user (u : Nat)
  | single (e : DetErr)
  | group (errs : List DetErr) (ctx : Option Nat)
deriving DecidableEq, Repr

/-- The tail of `CombinedLeakDetector.__aexit__` (`combined.py`,
lines 91-96): given the user exception being unwound (if any) and the
collected `leak_errors`, a non-empty `leak_errors` raises one
`PyleakExceptionGroup` wrapping the whole list — Python attaches the
in-flight user exception as the new exception's context — while an empty
`leak_errors` lets the original control flow (normal return or user
exception) pass through unchanged. -/
def combinedAexitOutcome (userExc : Option Nat) (leak_errors : List DetErr) :
    Surfaced :=
  if leak_errors.isEmpty then
    match userExc with
    | none => .nothing
    | some u => .user u
  else
    .group leak_errors userExc

/-! ## Stall detector numeric semantics (spec-modelled) -/

/-- Modelled from the spec: one heartbeat check of the Stall Detector,
whose implementation (`pyleak/eventloop.py`) is not among the available
sources.  Spec 4.1: upon resumption compute
`actual_delay = now - previous_wake_time`; if
`actual_delay - check_interval > threshold` a stall is confirmed whose
`duration` is `actual_delay - check_interval` (the excess beyond the
expected cadence); otherwise nothing is recorded. -/
def stallCheck (check_interval threshold actual_delay : ℚ) : Option ℚ :=
  if actual_delay - check_interval > threshold then
    some (actual_delay - check_interval)
  else none

/-- Modelled from the spec: the `actual_delay` of the one heartbeat cycle
disturbed by a synchronous block.  The heartbeat yields at time `0`
expecting to resume at `check_interval`; a synchronous block occupying the
scheduler for duration `d` starting at offset `s` into the cycle postpones
that resumption to `s + d` when the block extends past the due time, so the
measured delay is `max check_interval (s + d)`. -/
def blockActualDelay (check_interval s d : ℚ) : ℚ :=
  max check_interval (s + d)

/-- Modelled from the spec: the BlockingEvent durations recorded for a
scope whose body performs a single synchronous block of duration `d`
starting at offset `s` into a heartbeat cycle.  Only the one delayed cycle
can record an event, so the scope records at most one event. -/
def blockStallEvents (check_interval threshold s d : ℚ) : List ℚ :=
  match stallCheck check_interval threshold (blockActualDelay check_interval s d) with
  | some dur => [dur]
  | none => []

/-! ## Stall-detector action dispatch (spec-modelled) -/

/-- A recorded blocking event (spec 3): `block_id` is a monotonic counter
starting at 1, `duration` the seconds the scheduler was unresponsive,
`stack` the captured frame descriptors rendered as text. -/
structure BlockingEvent where
  block_id : Nat
  timestamp : ℚ
  duration : ℚ
  stack : List String
deriving DecidableEq, Repr

/-- The observable outcome of dispatching the blocking action at scope
exit: the warnings emitted, the log records emitted, and the raised error
(carrying its ordered event list), if any. -/
structure DispatchResult where
  warnings : List String
  logs : List String
  raised : Option (List BlockingEvent)
deriving DecidableEq, Repr

/-- The per-event notice text: describes the event's duration and stack. -/
def eventNotice (e : BlockingEvent) : String :=
  "Event loop blocked for " ++ toString e.duration ++ "s: "
    ++ String.intercalate "; " e.stack

/-- The summary notice text: states the total event count. -/
def summaryNotice (n : Nat) : String :=
  "Detected " ++ toString n ++ " event loop blocks"

/-- The final notice text: names the origin call site and the first
offending source line found in the captured stack. -/
def originNotice (origin firstLine : String) : String :=
  "Blocking detected in " ++ origin ++ " at " ++ firstLine

/-- Modelled from the spec: the action dispatch of the Stall Detector at
scope exit (`pyleak/eventloop.py` is not among the available sources).
Spec 4.1: with zero events nothing happens; otherwise `log` emits a
structured record per event; `warn` emits three escalating notices — one
per event describing duration and stack, one summary stating total event
count, and one final notice naming the origin call site and the first
offending source line; `raise` instead raises a typed error carrying the
full ordered sequence of events and suppresses the warnings. -/
def dispatchBlockingAction (action : Action) (origin firstLine : String)
    (events : List BlockingEvent) : DispatchResult :=
  if events.isEmpty then ⟨[], [], none⟩
  else
    match action with
    | .log => ⟨[], events.map eventNotice, none⟩
    | .warn =>
      ⟨events.map eventNotice ++ [summaryNotice events.length]
        ++ [originNotice origin firstLine], [], none⟩
    | .raiseErr => ⟨[], [], some events⟩
    | .cancel => ⟨[], events.map eventNotice, none⟩

/-! ## Caller-context resolver (`utils.py`, lines 16-51) -/

/-- One entry of `traceback.extract_stack()`: outermost frame first. -/
structure Frame where
  filename : String
  name : String
  lineno : Nat
deriving DecidableEq, Repr

/-- `CallerContext` (`utils.py`, lines 16-24): attribution data; `files` is
the related-files set, modelled as a `Finset` of filenames. -/
structure CallerContext where
  filename : String
  name : String
  lineno : Option Nat
  files : Option (Finset String)
deriving DecidableEq

/-- Whether `pat` occurs as a contiguous substring of `s`
(`pat in s` on Python strings). -/
def listHasInfix (pat : List Char) : List Char → Bool
  | [] => pat.isEmpty
  | c :: t => pat.isPrefixOf (c :: t) || listHasInfix pat t

/-- `pat in s` for strings. -/
def strHasInfix (s pat : String) : Bool :=
  listHasInfix pat.data s.data

/-- `s.startswith(pre)` for strings. -/
def strStartsWith (s pre : String) : Bool :=
  pre.data.isPrefixOf s.data

/-- `_is_user_file` (`utils.py`, lines 30-36): a filename is user code
unless it mentions `site-packages` or `lib/python`, or lives under the
pyleak source directory (`_pyleak_src_dir`, passed here explicitly since it
is computed from the installation path at import time). -/
def _is_user_file (pyleakSrcDir filename : String) : Bool :=
  if strHasInfix filename "site-packages" || strHasInfix filename "lib/python" then
    false
  else if strStartsWith filename pyleakSrcDir then
    false
  else
    true

/-- `stack[:-ignore_frames]` on a Python list (empty when
`ignore_frames = 0`, since `stack[:-0]` is `stack[:0]`). -/
def dropLastFrames (stack : List Frame) (ignore_frames : Nat) : List Frame :=
  if ignore_frames = 0 then []
  else stack.take (stack.length - ignore_frames)

/-- `find_my_caller` (`utils.py`, lines 39-51) applied to an extracted
stack: the reported frame is `stack[-ignore_frames - 1]` (`none` models the
`IndexError` Python would raise on a shorter stack), and `files` is the set
of filenames of the user-code frames of `stack[:-ignore_frames]`. -/
def find_my_caller (pyleakSrcDir : String) (stack : List Frame)
    (ignore_frames : Nat := 2) : Option CallerContext :=
  match stack.reverse.get? ignore_frames with
  | none => none
  | some frame =>
    some
      { filename := frame.filename
        name := frame.name
        lineno := some frame.lineno
        files := some
          (((dropLastFrames stack ignore_frames).filter
              (fun f => _is_user_file pyleakSrcDir f.filename)).map
            Frame.filename).toFinset }

/-! ## Combined run over a scope world (spec-modelled detector internals,
orchestrated per `combined.py`) -/

/-- A pending cooperative task (spec 3, TaskRecord): `internal` marks a
task spawned by the detection machinery itself. -/
structure TaskRec where
  tid : Nat
  name : String
  internal : Bool
deriving DecidableEq, Repr

/-- A live OS thread (spec 3, ThreadRecord). -/
structure ThreadRec where
  tid : Nat
  name : String
  internal : Bool
  daemon : Bool
deriving DecidableEq, Repr

/-- A wait observed on the scheduler: a synchronous occupation of the
scheduler by user code for `d` seconds, or a cooperative sleep of `d`
seconds (which yields the scheduler and hence never delays the
heartbeat). -/
inductive Wait
  | userSync (d : ℚ)
  | coopSleep (d : ℚ)
deriving DecidableEq, Repr

/-- The observable world of one scope: the currently pending cooperative
tasks, the currently live OS threads, and the waits performed so far, in
order. -/
structure World where
  tasks : List TaskRec
  threads : List ThreadRec
  waits : List Wait
deriving DecidableEq, Repr

/-- Modelled from the spec: the heartbeat task the Stall Detector spawns on
the cooperative scheduler (spec 4.4: the heartbeat machinery spawns a task,
tagged internal before the other detectors snapshot). -/
def pingTask (tid : Nat) : TaskRec :=
  { tid := tid, name := "pyleak-ping-event-loop", internal := true }

/-- Modelled from the spec: the independent stack-sampling thread of the
Stall Detector (spec 4.1/4.4: a separate OS thread, tagged internal). -/
def samplerThread (tid : Nat) : ThreadRec :=
  { tid := tid, name := "pyleak-stack-sampler", internal := true, daemon := true }

/-- An optional name filter applied as an inclusion predicate
(default `none`: accept all). -/
def passesFilter (filter : Option (String → Bool)) (name : String) : Bool :=
  match filter with
  | none => true
  | some f => f name

/-- Modelled from the spec: the Task-Leak Detector's exit computation
(spec 4.2; `pyleak/task.py` is not among the available sources).
Leaked = (exit snapshot − entry snapshot) filtered through the name filter
and filtered to exclude any task tagged internal. -/
def taskLeaksOf (baseline : List Nat) (filter : Option (String → Bool))
    (tasks : List TaskRec) : List TaskRec :=
  tasks.filter fun tk =>
    !decide (tk.tid ∈ baseline) && !tk.internal && passesFilter filter tk.name

/-- Modelled from the spec: the Thread-Leak Detector's exit computation
(spec 4.3; `pyleak/thread.py` is not among the available sources).
Leaked = (exit snapshot − entry snapshot) filtered by daemon exclusion and
name filter, excluding any thread tagged internal. -/
def threadLeaksOf (baseline : List Nat) (excludeDaemon : Bool)
    (filter : Option (String → Bool)) (threads : List ThreadRec) :
    List ThreadRec :=
  threads.filter fun th =>
    !decide (th.tid ∈ baseline) && !th.internal &&
      (!excludeDaemon || !th.daemon) && passesFilter filter th.name

/-- Modelled from the spec: the events the Stall Detector confirms over a
sequence of waits — only a synchronous occupation of the scheduler delays
the heartbeat; a cooperative sleep (such as the Thread-Leak Detector's own
grace-period wait) never does (spec 4.4, hazard 2). -/
def stallOfWait (check_interval threshold : ℚ) : Wait → Option ℚ
  | .userSync d => stallCheck check_interval threshold (check_interval + d)
  | .coopSleep _ => none

/-- The aggregated findings of one combined scope. -/
structure Findings where
  taskLeaks : List TaskRec
  threadLeaks : List ThreadRec
  blockingEvents : List ℚ
deriving DecidableEq, Repr

/-- The grace period the Thread-Leak Detector sleeps (cooperatively) before
its final thread enumeration (spec 4.3: fixed and short). -/
def gracePeriod : ℚ := 1/10

/-- One combined async scope over an initial world `w0` and a user body,
following `CombinedLeakDetector.__aenter__`/`__aexit__` (`combined.py`,
lines 44-89) with the detector internals modelled from the spec:

* `__aenter__`: the Task-Leak Detector snapshots the pending tasks; the
  Stall Detector then spawns its internal heartbeat task and sampling
  thread (both tagged internal) and notes where the wait log stands; the
  Thread-Leak Detector snapshots the live threads last, so the internal
  resources are already present in its baseline.
* the user body runs;
* `__aexit__`: the Thread-Leak Detector sleeps its grace period
  cooperatively and diffs the threads; the Stall Detector confirms events
  from the waits logged during the scope and tears down its internal task
  and thread; the Task-Leak Detector diffs the then-pending tasks. -/
def combinedRunFindings (c : PyLeakConfig) (pingId samplerId : Nat)
    (w0 : World) (body : World → World) : Findings :=
  let taskBaseline := if c.detect_tasks then some (w0.tasks.map TaskRec.tid) else none
  let w1 :=
    if c.detect_blocking then
      { w0 with
          tasks := w0.tasks ++ [pingTask pingId]
          threads := w0.threads ++ [samplerThread samplerId] }
    else w0
  let waitBase := w1.waits.length
  let threadBaseline :=
    if c.detect_threads then some (w1.threads.map ThreadRec.tid) else none
  let w2 := body w1
  let w2g :=
    if c.detect_threads then
      { w2 with waits := w2.waits ++ [Wait.coopSleep gracePeriod] }
    else w2
  let threadLeaks :=
    match threadBaseline with
    | none => []
    | some base =>
      threadLeaksOf base c.exclude_daemon_threads c.thread_name_filter w2g.threads
  let blockingEvents :=
    if c.detect_blocking then
      (w2g.waits.drop waitBase).filterMap
        (stallOfWait c.blocking_check_interval c.blocking_threshold)
    else []
  let w3 :=
    if c.detect_blocking then
      { w2g with
          tasks := w2g.tasks.filter (fun tk => tk.tid ≠ pingId)
          threads := w2g.threads.filter (fun th => th.tid ≠ samplerId) }
    else w2g
  let taskLeaks :=
    match taskBaseline with
    | none => []
    | some base => taskLeaksOf base c.task_name_filter w3.tasks
  { taskLeaks := taskLeaks, threadLeaks := threadLeaks,
    blockingEvents := blockingEvents }

/-- The `leak_errors` list of `CombinedLeakDetector.__aexit__` built from
the findings, in collection order (thread, blocking, task): a detector
contributes an error exactly when it found something and its action is
`raise`. -/
def findingErrors (c : PyLeakConfig) (f : Findings) : List DetErr :=
  (if !f.threadLeaks.isEmpty && c.thread_action = Action.raiseErr then
    [DetErr.threadLeak (f.threadLeaks.map ThreadRec.name)] else []) ++
  (if !f.blockingEvents.isEmpty && c.blocking_action = Action.raiseErr then
    [DetErr.eventLoopBlock f.blockingEvents] else []) ++
  (if !f.taskLeaks.isEmpty && c.task_action = Action.raiseErr then
    [DetErr.taskLeak (f.taskLeaks.map TaskRec.name)] else [])

/-- The full outcome of one combined async scope: findings are computed and
then aggregated as in `combined.py`, lines 91-96. -/
def combinedRunOutcome (c : PyLeakConfig) (pingId samplerId : Nat)
    (w0 : World) (body : World → World) (userExc : Option Nat) : Surfaced :=
  combinedAexitOutcome userExc
    (findingErrors c (combinedRunFindings c pingId samplerId w0 body))

/-- The all-defaults configuration: the one `should_monitor_test` resolves
for a bare `no_leaks` marker. -/
def defaultConfig : PyLeakConfig :=
  PyLeakConfig.ofMarkerArgs
    { tasks := some true, threads := some true, blocking := some true }

/-! ## Concrete inputs used by counterexamples and witnesses -/

/-- A concrete extracted stack: user entry point, an event-loop frame from
the standard library, a pyleak-internal frame, and `find_my_caller`
itself. -/
def exampleStack : List Frame :=
  [ { filename := "/home/app/main.py", name := "main", lineno := 10 },
    { filename := "/usr/lib/python3.11/asyncio/events.py", name := "run", lineno := 88 },
    { filename := "/pyleak/task.py", name := "enterScope", lineno := 5 },
    { filename := "/pyleak/utils.py", name := "find_my_caller", lineno := 42 } ]

/-- The caller context `find_my_caller` resolves on `exampleStack`. -/
def exampleCtx : CallerContext :=
  { filename := "/usr/lib/python3.11/asyncio/events.py"
    name := "run"
    lineno := some 88
    files := some {"/home/app/main.py"} }

/-- A concrete detector error used by counterexamples. -/
def exampleTaskErr : DetErr := DetErr.taskLeak ["task-1"]

/-- A concrete blocking event used by witnesses. -/
def exampleEvent : BlockingEvent :=
  { block_id := 1, timestamp := 100, duration := 9/10,
    stack := ["main.py:10 time.sleep(1)"] }

/-!
# Theorems

Helper lemmas first, then one theorem per claim (with its counterexample
and witness where required).
-/

theorem taskLeaksOf_eq_nil (baseline : List Nat)
    (filter : Option (String → Bool)) (tasks : List TaskRec)
    (h : ∀ tk ∈ tasks, tk.tid ∈ baseline) :
    taskLeaksOf baseline filter tasks = [] := by
  simp only [taskLeaksOf, List.filter_eq_nil_iff]
  intro tk htk
  simp [h tk htk]

theorem threadLeaksOf_eq_nil (baseline : List Nat) (excludeDaemon : Bool)
    (filter : Option (String → Bool)) (threads : List ThreadRec)
    (h : ∀ th ∈ threads, th.tid ∈ baseline) :
    threadLeaksOf baseline excludeDaemon filter threads = [] := by
  simp only [threadLeaksOf, List.filter_eq_nil_iff]
  intro th hth
  simp [h th hth]

/-- C5: for every exit of an async combined scope — whatever exception `exc`
is being unwound, including none — the stopped detectors are exactly the
started ones, and the stop order is the exact reverse of the start order
(started: task-leak, then blocking, then thread-leak; stopped: thread-leak,
then blocking, then task-leak), so no detector resource outlives its
scope. -/
theorem async_scope_stops_reverse_starts (c : PyLeakConfig) (exc : Option Nat) :
    aexitStops c true exc = (aenterStarts c true).reverse ∧
    ∀ d : Det, d ∈ aenterStarts c true ↔ d ∈ aexitStops c true exc := by
  rcases c with ⟨dt, _, _, _, dth, _, _, _, db, _, _, _⟩
  cases dt <;> cases dth <;> cases db <;>
    simp [aenterStarts, aexitStops] <;> intro d <;> cases d <;> simp

/-- C10: a synchronous combined scope (`__enter__`/`__exit__`) never starts
the task-leak or the blocking detector — enabling `detect_tasks` and
`detect_blocking` in the configuration changes nothing — and the exit stops
exactly what the entry started, so a synchronous scope never reports task
leaks or event-loop blocking. -/
theorem sync_scope_only_thread_detector (c : PyLeakConfig) :
    Det.taskLeakDet ∉ enterStarts c ∧
    Det.blockingDet ∉ enterStarts c ∧
    enterStarts { c with detect_tasks := true, detect_blocking := true } =
      enterStarts c ∧
    exitStops c = enterStarts c := by
  rcases c with ⟨dt, _, _, _, dth, _, _, _, db, _, _, _⟩
  cases dth <;> simp [enterStarts, exitStops]

/-- C3 counterexample: at combined-scope exit, a single collected detector
error does not propagate unchanged — `__aexit__` wraps even a lone error in
a `PyleakExceptionGroup`. -/
theorem single_error_is_wrapped :
    combinedAexitOutcome none [exampleTaskErr] =
      Surfaced.group [exampleTaskErr] none ∧
    combinedAexitOutcome none [exampleTaskErr] ≠
      Surfaced.single exampleTaskErr := by
  decide

/-- C3 amended: whenever the combined `__aexit__` collected at least one
detector error — including exactly one — all collected errors are wrapped
in a single aggregate that preserves the whole original list; no detector
error ever propagates unwrapped. -/
theorem aexit_wraps_every_error_list (userExc : Option Nat)
    (errs : List DetErr) (h : errs ≠ []) :
    combinedAexitOutcome userExc errs = Surfaced.group errs userExc ∧
    ∀ e : DetErr, combinedAexitOutcome userExc errs ≠ Surfaced.single e := by
  simp [combinedAexitOutcome, h]

/-- Witness for the C3 amended theorem at a concrete input. -/
theorem aexit_wraps_every_error_list_witness :
    combinedAexitOutcome none [exampleTaskErr] =
      Surfaced.group [exampleTaskErr] none :=
  (aexit_wraps_every_error_list none [exampleTaskErr] (by decide)).1

/-- C4 counterexample: when user code raised (exception `7`) and one
detector produced a finding, the error surfaced from the scope is the
aggregate, not the user's original exception — the original survives only
as the aggregate's implicit exception context. -/
theorem user_exception_not_primary :
    combinedAexitOutcome (some 7) [exampleTaskErr] =
      Surfaced.group [exampleTaskErr] (some 7) ∧
    combinedAexitOutcome (some 7) [exampleTaskErr] ≠ Surfaced.user 7 := by
  decide

/-- C4 amended: when user code raised and detectors produced findings, the
aggregate replaces the user's exception as the propagated (primary) error,
carrying the original as chained exception context — both are surfaced, but
the original is secondary; the user exception propagates unchanged exactly
when no detector error was collected. -/
theorem user_exception_chained_as_context (u : Nat) (errs : List DetErr)
    (h : errs ≠ []) :
    combinedAexitOutcome (some u) errs = Surfaced.group errs (some u) ∧
    combinedAexitOutcome (some u) [] = Surfaced.user u := by
  simp [combinedAexitOutcome, h]

/-- Witness for the C4 amended theorem at a concrete input. -/
theorem user_exception_chained_as_context_witness :
    combinedAexitOutcome (some 7) [exampleTaskErr] =
      Surfaced.group [exampleTaskErr] (some 7) :=
  (user_exception_chained_as_context 7 [exampleTaskErr] (by decide)).1

/-- C6 counterexample: a `no_leaks` marker carrying only the positional
flag `tasks` does not restrict detection to the task detector — the
resolved configuration still enables the thread and blocking detectors,
because `PyLeakConfig` defaults every `detect_*` flag to `True`. -/
theorem positional_flag_does_not_restrict :
    (PyLeakConfig.ofMarkerArgs
        (resolveMarkerArgs { args := ["tasks"], kwargs := {} })).detect_threads
      = true ∧
    (PyLeakConfig.ofMarkerArgs
        (resolveMarkerArgs { args := ["tasks"], kwargs := {} })).detect_blocking
      = true := by
  constructor <;> rfl

/-- C6 amended: a positional flag (`tasks`, `threads` or `blocking`) marks
the named detector enabled but does not disable the others, which stay
enabled by default — so any single positional flag resolves, like the bare
marker, to all three detectors enabled with default actions (`raise` each);
the bare marker additionally carries the default thresholds
(`blocking_threshold = 0.1`, `blocking_check_interval = 0.01`). -/
theorem marker_resolution_enables_all_by_default :
    (∀ f ∈ (["tasks", "threads", "blocking"] : List String),
      (PyLeakConfig.ofMarkerArgs
          (resolveMarkerArgs { args := [f], kwargs := {} })).detect_tasks = true ∧
      (PyLeakConfig.ofMarkerArgs
          (resolveMarkerArgs { args := [f], kwargs := {} })).detect_threads = true ∧
      (PyLeakConfig.ofMarkerArgs
          (resolveMarkerArgs { args := [f], kwargs := {} })).detect_blocking = true ∧
      (PyLeakConfig.ofMarkerArgs
          (resolveMarkerArgs { args := [f], kwargs := {} })).task_action
        = Action.raiseErr ∧
      (PyLeakConfig.ofMarkerArgs
          (resolveMarkerArgs { args := [f], kwargs := {} })).thread_action
        = Action.raiseErr ∧
      (PyLeakConfig.ofMarkerArgs
          (resolveMarkerArgs { args := [f], kwargs := {} })).blocking_action
        = Action.raiseErr) ∧
    (PyLeakConfig.ofMarkerArgs
        (resolveMarkerArgs { args := [], kwargs := {} })).detect_tasks = true ∧
    (PyLeakConfig.ofMarkerArgs
        (resolveMarkerArgs { args := [], kwargs := {} })).detect_threads = true ∧
    (PyLeakConfig.ofMarkerArgs
        (resolveMarkerArgs { args := [], kwargs := {} })).detect_blocking = true ∧
    (PyLeakConfig.ofMarkerArgs
        (resolveMarkerArgs { args := [], kwargs := {} })).blocking_threshold
      = 1/10 ∧
    (PyLeakConfig.ofMarkerArgs
        (resolveMarkerArgs { args := [], kwargs := {} })).blocking_check_interval
      = 1/100 := by
  refine ⟨?_, by rfl, by rfl, by rfl, by rfl, by rfl⟩
  intro f hf
  fin_cases hf <;> exact ⟨rfl, rfl, rfl, rfl, rfl, rfl⟩

/-- Witness for the C6 amended theorem at the concrete flag `tasks`. -/
theorem marker_resolution_enables_all_by_default_witness :
    (PyLeakConfig.ofMarkerArgs
        (resolveMarkerArgs { args := ["tasks"], kwargs := {} })).detect_tasks
      = true ∧
    (PyLeakConfig.ofMarkerArgs
        (resolveMarkerArgs { args := ["tasks"], kwargs := {} })).detect_threads
      = true ∧
    (PyLeakConfig.ofMarkerArgs
        (resolveMarkerArgs { args := ["tasks"], kwargs := {} })).detect_blocking
      = true ∧
    (PyLeakConfig.ofMarkerArgs
        (resolveMarkerArgs { args := ["tasks"], kwargs := {} })).task_action
      = Action.raiseErr ∧
    (PyLeakConfig.ofMarkerArgs
        (resolveMarkerArgs { args := ["tasks"], kwargs := {} })).thread_action
      = Action.raiseErr ∧
    (PyLeakConfig.ofMarkerArgs
        (resolveMarkerArgs { args := ["tasks"], kwargs := {} })).blocking_action
      = Action.raiseErr :=
  marker_resolution_enables_all_by_default.1 "tasks" (by simp)

/-- C7: the claim says `should_monitor_test` succeeds and returns a
resolved `PyLeakConfig` for every marked test; the code instead raises, for
every marked test, because it calls the classmethod
`PyLeakConfig.from_marker_args`, which `combined.py` does not define.
Evaluated here at the simplest failing input, a bare `no_leaks` marker. -/
theorem should_monitor_test_raises_attribute_error :
    should_monitor_test (some { args := [], kwargs := {} }) =
      Except.error (PyError.attributeError
        "type object PyLeakConfig has no attribute from_marker_args") ∧
    ∀ cfg : Option PyLeakConfig,
      should_monitor_test (some { args := [], kwargs := {} }) ≠ .ok cfg := by
  constructor
  · rfl
  · intro cfg h
    simp [should_monitor_test, pyLeakConfigAttrs] at h

/-- C9 counterexample: on `exampleStack` the resolved related-files set is
`{/home/app/main.py}` alone — the standard-library event-loop frame and the
pyleak frames are observed on the call stack but filtered out — so the
related-files field does not equal the set of filenames observed on the
call stack. -/
theorem caller_related_files_filtered :
    find_my_caller "/pyleak" exampleStack 2 = some exampleCtx ∧
    exampleCtx.files ≠ some (exampleStack.map Frame.filename).toFinset := by
  decide

/-- C9 amended: the related-files field equals the set of user-code
filenames (those passing `_is_user_file`: not stdlib, not site-packages,
not pyleak-internal) observed on the call stack after discarding the
innermost `ignore_frames` frames. -/
theorem caller_related_files_user_only (dir : String) (stack : List Frame)
    (k : Nat) (ctx : CallerContext)
    (h : find_my_caller dir stack k = some ctx) :
    ctx.files = some
      (((dropLastFrames stack k).map Frame.filename).toFinset.filter
        (fun fn => _is_user_file dir fn = true)) := by
  unfold find_my_caller at h
  cases hg : stack.reverse.get? k with
  | none => rw [hg] at h; exact absurd h (by simp)
  | some frame =>
    rw [hg] at h
    injection h with h
    subst h
    simp only []
    congr 1
    ext fn
    simp only [List.mem_toFinset, List.mem_map, List.mem_filter,
      Finset.mem_filter]
    constructor
    · rintro ⟨a, ⟨ha, hp⟩, rfl⟩
      exact ⟨⟨a, ha, rfl⟩, hp⟩
    · rintro ⟨⟨a, ha, rfl⟩, hp⟩
      exact ⟨a, ⟨ha, hp⟩, rfl⟩

/-- Witness for the C9 amended theorem at the concrete stack. -/
theorem caller_related_files_user_only_witness :
    exampleCtx.files = some
      (((dropLastFrames exampleStack 2).map Frame.filename).toFinset.filter
        (fun fn => _is_user_file "/pyleak" fn = true)) :=
  caller_related_files_user_only "/pyleak" exampleStack 2 exampleCtx (by decide)

/-- C2 counterexample: with `check_interval = 0.1` and `threshold = 0.1`, a
synchronous block of `d = 0.15 > threshold` beginning at the start of a
heartbeat cycle records zero BlockingEvents, because the recorded excess
`actual_delay - check_interval = 0.05` does not exceed the threshold — so
`d > t` does not imply exactly one event. -/
theorem stall_threshold_boundary :
    (1/10 : ℚ) < 3/20 ∧ blockStallEvents (1/10) (1/10) 0 (3/20) = [] := by
  constructor
  · norm_num
  · simp only [blockStallEvents, stallCheck, blockActualDelay]
    norm_num

/-- C2 amended: for a synchronous block of duration `d` starting at offset
`s` into a heartbeat cycle of period `check_interval = ci`: if
`d > t + ci`, exactly one BlockingEvent is recorded and its duration
`s + d - ci` is within one `ci` of `d - ci` (namely in `[d - ci, d]`); if
`d ≤ t`, zero events are recorded and nothing happens; between the two
bounds the outcome depends on the sampling offset. -/
theorem stall_events_excess_semantics (ci t s d : ℚ) (hci : 0 < ci)
    (ht : 0 ≤ t) (hs : 0 ≤ s) (hsci : s ≤ ci) :
    (t + ci < d → blockStallEvents ci t s d = [s + d - ci] ∧
      d - ci ≤ s + d - ci ∧ s + d - ci ≤ d) ∧
    (d ≤ t → blockStallEvents ci t s d = []) := by
  unfold blockStallEvents stallCheck blockActualDelay
  constructor
  · intro hd
    rw [max_eq_right (by linarith), if_pos (by linarith)]
    exact ⟨rfl, by linarith, by linarith⟩
  · intro hd
    rcases le_total (s + d) ci with hc | hc
    · rw [max_eq_left hc, if_neg (by linarith)]
    · rw [max_eq_right hc, if_neg (by linarith)]

/-- Witness for the C2 amended theorem: the documented scenario — defaults
`check_interval = 0.01`, `threshold = 0.1`, a 0.5-second block — records
exactly one event of duration `0.49`. -/
theorem stall_events_excess_semantics_witness :
    blockStallEvents (1/100) (1/10) 0 (1/2) = [49/100] := by
  have h := stall_events_excess_semantics (1/100) (1/10) 0 (1/2)
    (by norm_num) (by norm_num) (by norm_num) (by norm_num)
  rw [(h.1 (by norm_num)).1]
  norm_num

/-- C8: for a scope with `n ≥ 1` recorded blocking events, the `warn`
action emits exactly one notice per event, then one summary notice with the
total count, then one final notice naming the origin call site and first
offending line (`n + 2` notices in all) and raises nothing, while the
`raise` action raises the typed error carrying the full ordered event
sequence and emits no warnings; for every action, emitting warnings and
raising are mutually exclusive. -/
theorem blocking_dispatch_warn_or_raise (origin firstLine : String)
    (events : List BlockingEvent) (hne : events ≠ []) :
    (dispatchBlockingAction .warn origin firstLine events).warnings =
      events.map eventNotice ++ [summaryNotice events.length]
        ++ [originNotice origin firstLine] ∧
    (dispatchBlockingAction .warn origin firstLine events).warnings.length =
      events.length + 2 ∧
    (dispatchBlockingAction .warn origin firstLine events).raised = none ∧
    (dispatchBlockingAction .raiseErr origin firstLine events).raised =
      some events ∧
    (dispatchBlockingAction .raiseErr origin firstLine events).warnings = [] ∧
    ∀ a : Action,
      ¬((dispatchBlockingAction a origin firstLine events).warnings ≠ [] ∧
        (dispatchBlockingAction a origin firstLine events).raised ≠ none) := by
  have hne' : events.isEmpty = false := by
    simpa [List.isEmpty_iff] using hne
  refine ⟨?_, ?_, ?_, ?_, ?_, ?_⟩
  · simp [dispatchBlockingAction, hne']
  · simp [dispatchBlockingAction, hne']
  · simp [dispatchBlockingAction, hne']
  · simp [dispatchBlockingAction, hne']
  · simp [dispatchBlockingAction, hne']
  · intro a
    cases a <;> simp [dispatchBlockingAction, hne']

/-- Witness for the C8 theorem: one recorded event yields exactly three
warn notices and, under `raise`, the one-event error — as the source tests
assert. -/
theorem blocking_dispatch_warn_or_raise_witness :
    (dispatchBlockingAction .warn "bad_sleep_with_warning" "time.sleep(1)"
        [exampleEvent]).warnings.length = 3 ∧
    (dispatchBlockingAction .raiseErr "bad_sleep_with_warning" "time.sleep(1)"
        [exampleEvent]).raised = some [exampleEvent] := by
  have h := blocking_dispatch_warn_or_raise "bad_sleep_with_warning"
    "time.sleep(1)" [exampleEvent] (by simp)
  exact ⟨h.2.1, h.2.2.2.1⟩

theorem filterMap_stallOfWait_coop (ci t d : ℚ) :
    [Wait.coopSleep d].filterMap (stallOfWait ci t) = [] := rfl

theorem taskLeaksOf_self_baseline (tasks : List TaskRec)
    (filter : Option (String → Bool)) :
    taskLeaksOf (tasks.map TaskRec.tid) filter tasks = [] := by
  apply taskLeaksOf_eq_nil
  intro tk htk
  exact List.mem_map.mpr ⟨tk, htk, rfl⟩

theorem taskLeaksOf_ping_filtered (tasks : List TaskRec) (pid : Nat)
    (filter : Option (String → Bool)) :
    taskLeaksOf (tasks.map TaskRec.tid) filter
      (tasks.filter (fun tk => !decide (tk.tid = pid)) ++
        [pingTask pid].filter (fun tk => !decide (tk.tid = pid))) = [] := by
  have h2 : [pingTask pid].filter (fun tk => !decide (tk.tid = pid)) = [] := by
    simp [pingTask]
  rw [h2, List.append_nil]
  apply taskLeaksOf_eq_nil
  intro tk htk
  exact List.mem_map.mpr ⟨tk, (List.mem_filter.mp htk).1, rfl⟩

theorem threadLeaksOf_self_baseline (threads : List ThreadRec)
    (excludeDaemon : Bool) (filter : Option (String → Bool)) :
    threadLeaksOf (threads.map ThreadRec.tid) excludeDaemon filter threads = [] := by
  apply threadLeaksOf_eq_nil
  intro th hth
  exact List.mem_map.mpr ⟨th, hth, rfl⟩

theorem threadLeaksOf_sampler_baseline (threads : List ThreadRec) (sid : Nat)
    (excludeDaemon : Bool) (filter : Option (String → Bool)) :
    threadLeaksOf (threads.map ThreadRec.tid ++ [(samplerThread sid).tid])
      excludeDaemon filter (threads ++ [samplerThread sid]) = [] := by
  apply threadLeaksOf_eq_nil
  intro th hth
  rcases List.mem_append.mp hth with h | h
  · exact List.mem_append.mpr (Or.inl (List.mem_map.mpr ⟨th, h, rfl⟩))
  · rw [List.mem_singleton] at h
    subst h
    exact List.mem_append.mpr (Or.inr (List.mem_singleton.mpr rfl))

/-- C1: over a scope whose body changes nothing — no synchronous block, no
task left pending, no thread left alive — the combined run of the Stall,
Task-Leak and Thread-Leak detectors yields zero findings and raises
nothing, for every configuration, initial world and choice of internal
identities: the blocking detector's internal heartbeat task and sampling
thread are never reported as leaks, and the detectors' own cooperative
waits (heartbeat sleeps, the thread detector's grace period) never count as
blocking events. -/
theorem combined_clean_scope_zero_findings (c : PyLeakConfig) (w0 : World)
    (pingId samplerId : Nat) :
    combinedRunFindings c pingId samplerId w0 id =
      { taskLeaks := [], threadLeaks := [], blockingEvents := [] } ∧
    combinedRunOutcome c pingId samplerId w0 id none = Surfaced.nothing := by
  have hfind : combinedRunFindings c pingId samplerId w0 id =
      { taskLeaks := [], threadLeaks := [], blockingEvents := [] } := by
    cases hb : c.detect_blocking <;> cases hth : c.detect_threads <;>
      cases ht : c.detect_tasks <;>
      simp [combinedRunFindings, hb, hth, ht, id, List.drop_length,
        List.drop_left, filterMap_stallOfWait_coop, taskLeaksOf_self_baseline,
        taskLeaksOf_ping_filtered, threadLeaksOf_self_baseline,
        threadLeaksOf_sampler_baseline]
  refine ⟨hfind, ?_⟩
  rw [combinedRunOutcome, hfind]
  simp [findingErrors, combinedAexitOutcome]

end Pyleak
